import Mathlib

set_option maxRecDepth 4096

/-!
Verification development for the Brawl Stars statistics repository's
data-processing module (`data_processor.py`, class `BrawlStarsDataProcessor`).

Python strings are embedded as lists of Unicode code points (`List Nat`),
so that the ASCII case functions (`str.lower`, `str.title`), substring
replacement (`str.replace`) and integer parsing/printing used by the source
are plain executable arithmetic.  Python dictionaries whose keys are fixed
in the source become structures; a key that the source may find absent
becomes an `Option` field.  A Python expression that can raise (a direct
`d[k]` subscript on a possibly-missing key, or `int(...)` on a
non-numeric string) is embedded in the `Except Unit` monad; `.error ()`
is "an exception propagates".
-/

/-- Code points of a Lean string literal, used to write concrete Python
string values. -/
def pstr (s : String) : List Nat :=
  s.data.map Char.toNat

/-- ASCII lower-casing of one code point, as Python `str.lower` acts on the
ASCII inputs handled by the source. -/
def lowerN (c : Nat) : Nat :=
  if 65 ≤ c ∧ c ≤ 90 then c + 32 else c

/-- ASCII upper-casing of one code point. -/
def upperN (c : Nat) : Nat :=
  if 97 ≤ c ∧ c ≤ 122 then c - 32 else c

/-- ASCII letter test, Python's notion of a cased character on the ASCII
range used by `str.title`. -/
def isAlphaN (c : Nat) : Bool :=
  decide ((65 ≤ c ∧ c ≤ 90) ∨ (97 ≤ c ∧ c ≤ 122))

/-- Python `str.lower` on the ASCII range. -/
def pyLower (s : List Nat) : List Nat :=
  s.map lowerN

/-- Worker for Python `str.title`: the flag records whether the previous
character was cased, i.e. whether we are inside a word. -/
def titleGo (prev : Bool) : List Nat → List Nat
  | [] => []
  | c :: rest =>
    let al := isAlphaN c
    (if al then (if prev then lowerN c else upperN c) else c) :: titleGo al rest

/-- Python `str.title`: upper-cases the first letter of each maximal run of
letters and lower-cases the rest. -/
def pyTitle (s : List Nat) : List Nat :=
  titleGo false s

/-- Worker for Python `str.replace`: scans left to right, emitting the
replacement at each non-overlapping match of the pattern; the counter skips
the remainder of a match that has just been consumed. -/
def replaceGo (pat rep : List Nat) : Nat → List Nat → List Nat
  | _, [] => []
  | k + 1, _ :: cs => replaceGo pat rep k cs
  | 0, c :: cs =>
    if pat.isPrefixOf (c :: cs) then rep ++ replaceGo pat rep (pat.length - 1) cs
    else c :: replaceGo pat rep 0 cs

/-- Python `s.replace(pat, rep)` for the non-empty patterns the source uses
(`"#"`, `"T"`, `".000Z"`). -/
def replaceAll (s pat rep : List Nat) : List Nat :=
  if pat.isEmpty then s else replaceGo pat rep 0 s

/-- Digit run of Python `int(...)`: value of a non-empty all-digit string. -/
def digitsVal : List Nat → Option Nat
  | [] => none
  | [c] => if 48 ≤ c ∧ c ≤ 57 then some (c - 48) else none
  | c :: rest =>
    if 48 ≤ c ∧ c ≤ 57 then
      match digitsVal rest with
      | some v => some ((c - 48) * 10 ^ rest.length + v)
      | none => none
    else none

/-- Python `int(s)` on the sign-plus-digits strings the source can feed it
(`'#'`-stripped rank labels); `none` is a raised `ValueError`. -/
def pyInt (s : List Nat) : Option Int :=
  match s with
  | 43 :: rest => (digitsVal rest).map Int.ofNat
  | 45 :: rest => (digitsVal rest).map (fun n => -(n : Int))
  | _ => (digitsVal s).map Int.ofNat

/-- Python `str(i)` for an integer, as code points. -/
def intToStr (i : Int) : List Nat :=
  pstr (toString i)

/-! ## Raw battle-log data model (input of `format_battle_log`)

Each structure mirrors one dictionary shape of the Brawl Stars battle-log
JSON as the source reads it; `Option` marks keys the source observes to be
possibly absent. -/

/-- A brawler entry inside a battle participant (`name`/`power`/`trophies`
keys, read with direct subscripts by the source). -/
structure RawBrawlerRef where
  name : Option (List Nat)
  power : Option Int
  trophies : Option Int
deriving DecidableEq, Repr

/-- One participant of a battle: `tag`, a single `brawler` (team modes) or a
`brawlers` list (duels mode). -/
structure RawPlayer where
  tag : Option (List Nat)
  brawler : Option RawBrawlerRef
  brawlers : Option (List RawBrawlerRef)
deriving DecidableEq, Repr

/-- The `starPlayer` sub-dictionary with its optional `tag`. -/
structure RawStarPlayer where
  tag : Option (List Nat)
deriving DecidableEq, Repr

/-- The `battle` sub-dictionary of one battle-log item.  `typ` embeds the
`type` key (a Lean keyword). -/
structure RawBattleInner where
  mode : Option (List Nat)
  players : Option (List RawPlayer)
  teams : Option (List (List RawPlayer))
  typ : Option (List Nat)
  result : Option (List Nat)
  duration : Option Int
  trophyChange : Option Int
  rank : Option Int
  starPlayer : Option RawStarPlayer
deriving DecidableEq, Repr

/-- The `event` sub-dictionary with its optional `map`. -/
structure RawEvent where
  map : Option (List Nat)
deriving DecidableEq, Repr

/-- One element of the raw battle log's `items` list. -/
structure RawBattle where
  battle : Option RawBattleInner
  battleTime : Option (List Nat)
  event : Option RawEvent
deriving DecidableEq, Repr

/-- The raw battle log: a container with an `items` list
(`battles.get('items', [])` in the source). -/
structure RawLog where
  items : Option (List RawBattle)
deriving DecidableEq, Repr

/-- One row of the formatted battle table built by `format_battle_log`;
field `Type_` embeds the `Type` column (a Lean keyword). -/
structure FormattedBattle where
  Time : List Nat
  Brawler : List Nat
  Power : Int
  Trophies : Int
  Mode : List Nat
  Map : List Nat
  Type_ : List Nat
  Result : List Nat
  Duration : List Nat
  TrophyChange : Int
  Rank : List Nat
  StarPlayer : List Nat
deriving DecidableEq, Repr

/-- Direct dictionary subscript `d[k]`: raises (`.error ()`) when the key is
absent. -/
def getKey {α : Type} : Option α → Except Unit α
  | some a => Except.ok a
  | none => Except.error ()

deriving instance DecidableEq for Except

/-! ## `format_battle_log` (source lines 59-124)

The Python loop body has no exception handling, so each helper below runs in
`Except Unit`; any raised exception aborts the whole call. -/

/-- Summary assembled in the duels branch: arrow-joined brawler names, summed
power and summed trophies. -/
structure BrawlerInfo where
  name : List Nat
  power : Int
  trophies : Int
deriving DecidableEq, Repr

/-- Duels branch (source lines 79-88): scan `battle['battle'].get('players',
[])` for the first player whose `tag` (direct subscript) equals the subject
tag, and build its brawler summary from the `brawlers` list (direct
subscripts throughout). -/
def findDuelsInfo (tag : List Nat) : List RawPlayer → Except Unit (Option BrawlerInfo)
  | [] => Except.ok none
  | p :: ps => do
    let ptag ← getKey p.tag
    if ptag = tag then do
      let bws ← getKey p.brawlers
      let names ← bws.mapM fun b => do
        let nm ← getKey b.name
        pure (pyTitle nm)
      let powers ← bws.mapM fun b => getKey b.power
      let trophs ← bws.mapM fun b => getKey b.trophies
      pure (some { name := List.intercalate (pstr " → ") names,
                   power := powers.sum, trophies := trophs.sum })
    else
      findDuelsInfo tag ps

/-- Inner loop of the team search (source lines 92-95): first player of one
roster whose `tag` (direct subscript) equals the subject tag. -/
def findInTeam (tag : List Nat) : List RawPlayer → Except Unit (Option RawPlayer)
  | [] => Except.ok none
  | p :: ps => do
    let ptag ← getKey p.tag
    if ptag = tag then pure (some p) else findInTeam tag ps

/-- Outer loop of the team search (source lines 91-97): first match across
the team rosters, in order. -/
def findInTeams (tag : List Nat) : List (List RawPlayer) → Except Unit (Option RawPlayer)
  | [] => Except.ok none
  | team :: rest => do
    match ← findInTeam tag team with
    | some p => pure (some p)
    | none => findInTeams tag rest

/-- The three subject columns of a row (source lines 102-107): duels summary
if present, else the located team player's single brawler (direct subscripts
`player_data['brawler']['name'/'power'/'trophies']`), else the
`'Unknown'`/0 fallbacks. -/
def brawlerFields : Option BrawlerInfo → Option RawPlayer → Except Unit (List Nat × Int × Int)
  | some bi, _ => Except.ok (bi.name, bi.power, bi.trophies)
  | none, some pd =>
    match pd.brawler with
    | none => Except.error ()
    | some br =>
      match br.name, br.power, br.trophies with
      | some nm, some pw, some tr => Except.ok (pyTitle nm, pw, tr)
      | _, _, _ => Except.error ()
  | none, none => Except.ok (pstr "Unknown", 0, 0)

/-- The star-player tag of a raw battle:
`battle['battle'].get('starPlayer', {}).get('tag')`. -/
def starTagOf (b : RawBattle) : Option (List Nat) :=
  (b.battle.bind RawBattleInner.starPlayer).bind RawStarPlayer.tag

/-- One iteration of the `format_battle_log` loop (source lines 73-122):
formats a single raw battle into a row and reports whether the subject is
the star player.  Every direct subscript of the Python body is a `getKey`,
so a missing key raises. -/
def formatOneBattle (tag : List Nat) (b : RawBattle) : Except Unit (FormattedBattle × Bool) :=
  match b.battle with
  | none => Except.error ()
  | some inner =>
    let search : Except Unit (Option BrawlerInfo × Option RawPlayer) :=
      if inner.mode = some (pstr "duels") then
        match findDuelsInfo tag (inner.players.getD []) with
        | Except.error e => Except.error e
        | Except.ok bi => Except.ok (bi, none)
      else if inner.teams.isSome then
        match findInTeams tag (inner.teams.getD []) with
        | Except.error e => Except.error e
        | Except.ok pd => Except.ok (none, pd)
      else Except.ok (none, none)
    match search with
    | Except.error e => Except.error e
    | Except.ok (brawler_info, player_data) =>
      match b.battleTime with
      | none => Except.error ()
      | some bt =>
        match brawlerFields brawler_info player_data with
        | Except.error e => Except.error e
        | Except.ok (bname, bpower, btroph) =>
          match inner.mode with
          | none => Except.error ()
          | some mode =>
            match b.event with
            | none => Except.error ()
            | some ev =>
              Except.ok
                ({ Time := replaceAll (replaceAll bt (pstr "T") (pstr " ")) (pstr ".000Z") [],
                   Brawler := bname,
                   Power := bpower,
                   Trophies := btroph,
                   Mode := pyTitle mode,
                   Map := ev.map.getD (pstr "Unknown"),
                   Type_ := pyTitle (inner.typ.getD (pstr "Unknown")),
                   Result := pyTitle (inner.result.getD []),
                   Duration := intToStr (inner.duration.getD 0) ++ [115],
                   TrophyChange := inner.trophyChange.getD 0,
                   Rank := match inner.rank with
                           | some r => 35 :: intToStr r
                           | none => [],
                   StarPlayer := if starTagOf b = some tag then pstr "⭐" else [] },
                 decide (starTagOf b = some tag))

/-- The `format_battle_log` loop over the items list: accumulates the rows in
input order and counts star-player battles; the first raised exception
aborts the whole call. -/
def runBattles (tag : List Nat) : List RawBattle → Except Unit (List FormattedBattle × Nat)
  | [] => Except.ok ([], 0)
  | b :: rest => do
    let (fb, star) ← formatOneBattle tag b
    let (fbs, n) ← runBattles tag rest
    pure (fb :: fbs, (if star then 1 else 0) + n)

/-- `format_battle_log(battles, player_tag)` (source lines 59-124): formats
`battles.get('items', [])` and returns the rows with the star-player
count. -/
def format_battle_log (log : RawLog) (tag : List Nat) : Except Unit (List FormattedBattle × Nat) :=
  runBattles tag (log.items.getD [])

/-! ## Static formatting helpers (source lines 149-281) -/

/-- `_get_battle_result(battle)` (source lines 191-208): lower-case the
optional raw result and map it through
`{'victory': 'Victory', 'defeat': 'Defeat', 'draw': 'Draw'}` with default
`'No Result'`. -/
def get_battle_result (b : RawBattle) : List Nat :=
  let r := pyLower ((b.battle.bind RawBattleInner.result).getD [])
  if r = pstr "victory" then pstr "Victory"
  else if r = pstr "defeat" then pstr "Defeat"
  else if r = pstr "draw" then pstr "Draw"
  else pstr "No Result"

/-- `_format_trophy_change(battle)` (source lines 210-224): `'+'`-prefix the
trophy change when it is strictly positive, else print it as-is. -/
def format_trophy_change (b : RawBattle) : List Nat :=
  let tc := (b.battle.bind RawBattleInner.trophyChange).getD 0
  if 0 < tc then 43 :: intToStr tc else intToStr tc

/-- A raw battle whose only content is a trophy change, for exercising
`format_trophy_change`. -/
def mkTCBattle (n : Int) : RawBattle :=
  { battle := some { mode := none, players := none, teams := none, typ := none,
                     result := none, duration := none, trophyChange := some n,
                     rank := none, starPlayer := none },
    battleTime := none, event := none }

/-- Gregorian leap-year test, as `datetime` validates dates. -/
def isLeap (y : Nat) : Bool :=
  decide ((y % 4 = 0 ∧ y % 100 ≠ 0) ∨ y % 400 = 0)

/-- Days of a month, as `datetime` validates dates. -/
def daysInMonth (y m : Nat) : Nat :=
  if m = 2 then (if isLeap y then 29 else 28)
  else if m = 4 ∨ m = 6 ∨ m = 9 ∨ m = 11 then 30
  else 31

/-- Decimal digit test on a code point. -/
def isDigitN (c : Nat) : Bool :=
  decide (48 ≤ c ∧ c ≤ 57)

/-- Value of two digit code points. -/
def val2 (a b : Nat) : Nat :=
  (a - 48) * 10 + (b - 48)

/-- `datetime.strptime(s, '%Y%m%dT%H%M%S.000Z')` (source line 161), modelled
on the zero-padded fixed-width shape the format names: four year digits, two
month digits, two day digits, `T`, six time digits, then the literal
`.000Z`, with the ranges `datetime` accepts (year ≥ 1, valid calendar date,
hour ≤ 23, minute ≤ 59, second ≤ 59).  Any other string is a raised
`ValueError`, i.e. `none`. -/
def parseBattleTime (s : List Nat) : Option (Nat × Nat × Nat × Nat × Nat × Nat) :=
  match s with
  | [y1, y2, y3, y4, a1, a2, d1, d2, t, h1, h2, m1, m2, s1, s2, dot, z1, z2, z3, z] =>
    let y := val2 y1 y2 * 100 + val2 y3 y4
    let mo := val2 a1 a2
    let d := val2 d1 d2
    let h := val2 h1 h2
    let mi := val2 m1 m2
    let se := val2 s1 s2
    if ([y1, y2, y3, y4, a1, a2, d1, d2, h1, h2, m1, m2, s1, s2].all isDigitN)
        ∧ t = 84 ∧ dot = 46 ∧ z1 = 48 ∧ z2 = 48 ∧ z3 = 48 ∧ z = 90
        ∧ 1 ≤ y ∧ 1 ≤ mo ∧ mo ≤ 12 ∧ 1 ≤ d ∧ d ≤ daysInMonth y mo
        ∧ h ≤ 23 ∧ mi ≤ 59 ∧ se ≤ 59 then
      some (y, mo, d, h, mi, se)
    else none
  | _ => none

/-- Two-digit zero-padded rendering, as `strftime` prints `%d`, `%m`, `%H`,
`%M`. -/
def pad2 (n : Nat) : List Nat :=
  [48 + n / 10, 48 + n % 10]

/-- Four-digit zero-padded rendering, as `strftime` prints `%Y` here. -/
def pad4 (n : Nat) : List Nat :=
  [48 + n / 1000, 48 + n / 100 % 10, 48 + n / 10 % 10, 48 + n % 10]

/-- `_format_battle_time(battle_time)` (source lines 149-163): parse the
fixed format and reprint as `'%d.%m.%Y %H:%M'`; a parse failure is caught
and becomes `'Unknown'`. -/
def format_battle_time (s : List Nat) : List Nat :=
  match parseBattleTime s with
  | none => pstr "Unknown"
  | some (y, mo, d, h, mi, _) =>
    pad2 d ++ [46] ++ pad2 mo ++ [46] ++ pad4 y ++ [32] ++ pad2 h ++ [58] ++ pad2 mi

/-! ## `_is_victory` and `calculate_battle_statistics` (source lines 10-57) -/

/-- `_is_victory(battle)` (source lines 34-57) over a formatted row: rank
rule for the showdown modes when the `Rank` cell is non-empty (parsing the
`'#'`-stripped label with `int`, which may raise), otherwise the
case-insensitive result check. -/
def is_victory (b : FormattedBattle) : Except Unit Bool :=
  let mode := pyLower b.Mode
  if mode = pstr "soloshowdown" ∧ b.Rank ≠ [] then
    match pyInt (replaceAll b.Rank (pstr "#") []) with
    | some rank => Except.ok (decide (rank ≤ 4))
    | none => Except.error ()
  else if mode = pstr "duoshowdown" ∧ b.Rank ≠ [] then
    match pyInt (replaceAll b.Rank (pstr "#") []) with
    | some rank => Except.ok (decide (rank ≤ 2))
    | none => Except.error ()
  else
    Except.ok (decide (pyLower b.Result = pstr "victory"))

/-- The aggregate record returned by `calculate_battle_statistics`; the win
rate's float arithmetic is embedded in `ℚ`. -/
structure BattleStats where
  total_games : Nat
  victories : Nat
  win_rate : ℚ
deriving DecidableEq, Repr

/-- `sum(1 for b in battles if self._is_victory(b))` (source line 25): the
generator raises as soon as one record does. -/
def countVictories : List FormattedBattle → Except Unit Nat
  | [] => Except.ok 0
  | b :: rest => do
    let v ← is_victory b
    let n ← countVictories rest
    pure ((if v then 1 else 0) + n)

/-- `calculate_battle_statistics(battles)` (source lines 10-32): zeros for an
empty input, else length, victory count and `victories / total_games * 100`
guarded by `total_games > 0`. -/
def calculate_battle_statistics (battles : List FormattedBattle) : Except Unit BattleStats :=
  if battles = [] then Except.ok { total_games := 0, victories := 0, win_rate := 0 }
  else do
    let total := battles.length
    let v ← countVictories battles
    pure { total_games := total, victories := v,
           win_rate := if 0 < total then (v : ℚ) / (total : ℚ) * 100 else 0 }

/-! ## Brawler statistics (source lines 283-324 and 371-395) -/

/-- One owned brawler of a player profile.  `power` is a required field of
the API schema and is read with a direct subscript; the other fields are
read defensively and stay optional.  Only the lengths of the three
equipment lists matter, their entries are the optional `name` values. -/
structure Brawler where
  name : Option (List Nat)
  power : Int
  trophies : Option Int
  gears : Option (List (Option (List Nat)))
  starPowers : Option (List (Option (List Nat)))
  gadgets : Option (List (Option (List Nat)))
deriving DecidableEq, Repr

/-- A player profile as the brawler-statistics functions read it: only the
optional `brawlers` list; a falsy/empty profile is `brawlers := none`. -/
structure PlayerData where
  brawlers : Option (List Brawler)
deriving DecidableEq, Repr

/-- Accumulator of the `calculate_brawler_statistics` loop. -/
structure BrawlerAcc where
  high : Nat
  maxed : Nat
  gears : Nat
  starpowers : Nat
  gadgets : Nat
deriving DecidableEq, Repr

/-- One iteration of the `calculate_brawler_statistics` loop (source lines
303-315). -/
def brawlerStep (acc : BrawlerAcc) (b : Brawler) : BrawlerAcc :=
  { high := acc.high + (if 9 ≤ b.power then 1 else 0),
    maxed := acc.maxed + (if b.power = 11 then 1 else 0),
    gears := acc.gears + (match b.gears with | some g => g.length | none => 0),
    starpowers := acc.starpowers + (match b.starPowers with | some g => g.length | none => 0),
    gadgets := acc.gadgets + (match b.gadgets with | some g => g.length | none => 0) }

/-- `calculate_brawler_statistics(player_data)` (source lines 283-324): the
returned dictionary as an association list; the empty list is the `{}`
returned when the profile is falsy or has no `brawlers` key. -/
def calculate_brawler_statistics (pd : PlayerData) : List (String × Nat) :=
  match pd.brawlers with
  | none => []
  | some brawlers =>
    let acc := brawlers.foldl brawlerStep { high := 0, maxed := 0, gears := 0,
                                            starpowers := 0, gadgets := 0 }
    [("total_brawlers", brawlers.length),
     ("high_level_brawlers", acc.high),
     ("max_level_brawlers", acc.maxed),
     ("total_gears", acc.gears),
     ("total_starpowers", acc.starpowers),
     ("total_gadgets", acc.gadgets)]

/-- The sort key of `get_highest_trophy_brawler`: `x.get('trophies', 0)`. -/
def keyT (b : Brawler) : Int :=
  b.trophies.getD 0

/-- Python `max(first :: rest, key=keyT)`: replace the running maximum only
on a strictly greater key, so the first maximum encountered wins. -/
def maxByTroph (a : Brawler) (l : List Brawler) : Brawler :=
  l.foldl (fun best x => if keyT best < keyT x then x else best) a

/-- `get_highest_trophy_brawler(player_data)` (source lines 371-395): `none`
is the `{}` returned for a falsy profile, a missing `brawlers` key, or an
empty brawler list (the falsy `max` default); otherwise the first
maximum-trophy brawler's name and trophies with their `.get` defaults. -/
def get_highest_trophy_brawler (pd : PlayerData) : Option (List Nat × Int) :=
  match pd.brawlers with
  | none => none
  | some [] => none
  | some (b :: bs) =>
    let hb := maxByTroph b bs
    some (hb.name.getD (pstr "Unknown"), hb.trophies.getD 0)

/-! ## Spec-side victory rule -/

/-- Modelled from the spec: Rule A as the spec words it — solo showdown with
a present rank of 4 or better, duo showdown with a present rank of 2 or
better, or, for every other mode, a raw result reading `victory`
case-insensitively. -/
def victoryRuleA (b : FormattedBattle) : Prop :=
  (pyLower b.Mode = pstr "soloshowdown" ∧ b.Rank ≠ [] ∧
    ∃ k, pyInt (replaceAll b.Rank (pstr "#") []) = some k ∧ k ≤ 4) ∨
  (pyLower b.Mode = pstr "duoshowdown" ∧ b.Rank ≠ [] ∧
    ∃ k, pyInt (replaceAll b.Rank (pstr "#") []) = some k ∧ k ≤ 2) ∨
  (pyLower b.Mode ≠ pstr "soloshowdown" ∧ pyLower b.Mode ≠ pstr "duoshowdown" ∧
    pyLower b.Result = pstr "victory")

/-- The victory rule the code actually implements: as Rule A, except that a
showdown battle whose `Rank` cell is empty also falls back to the
case-insensitive result check. -/
def victoryRuleCode (b : FormattedBattle) : Prop :=
  (pyLower b.Mode = pstr "soloshowdown" ∧ b.Rank ≠ [] ∧
    ∃ k, pyInt (replaceAll b.Rank (pstr "#") []) = some k ∧ k ≤ 4) ∨
  (pyLower b.Mode = pstr "duoshowdown" ∧ b.Rank ≠ [] ∧
    ∃ k, pyInt (replaceAll b.Rank (pstr "#") []) = some k ∧ k ≤ 2) ∨
  (¬(pyLower b.Mode = pstr "soloshowdown" ∧ b.Rank ≠ []) ∧
   ¬(pyLower b.Mode = pstr "duoshowdown" ∧ b.Rank ≠ []) ∧
    pyLower b.Result = pstr "victory")

/-! ## Concrete sample data -/

/-- A minimal raw battle every subscript of the loop body can serve. -/
def okBattle : RawBattle :=
  { battle := some { mode := some (pstr "gemGrab"), players := none, teams := none, typ := none,
                     result := none, duration := none, trophyChange := none,
                     rank := none, starPlayer := none },
    battleTime := some (pstr "t"), event := some { map := none } }

/-- The row `format_battle_log` produces for `okBattle`. -/
def okRow : FormattedBattle :=
  { Time := pstr "t", Brawler := pstr "Unknown", Power := 0, Trophies := 0,
    Mode := pstr "Gemgrab", Map := pstr "Unknown", Type_ := pstr "Unknown",
    Result := [], Duration := pstr "0s", TrophyChange := 0, Rank := [], StarPlayer := [] }

/-- A raw battle whose missing `battle` key makes the loop body raise
`KeyError` at its first subscript. -/
def badBattle : RawBattle :=
  { battle := none, battleTime := some (pstr "t"), event := some { map := none } }

/-! ## C1: processing cap and ordering of `format_battle_log` -/

/-- C1 lemmas: a successful `runBattles` pass formats every item, in
order. -/
lemma runBattles_ok_forall2 {tag : List Nat} {l : List RawBattle} {fbs : List FormattedBattle}
    {n : Nat} (h : runBattles tag l = Except.ok (fbs, n)) :
    List.Forall₂ (fun b fb => ∃ s, formatOneBattle tag b = Except.ok (fb, s)) l fbs := by
  induction l generalizing fbs n with
  | nil =>
    simp [runBattles] at h
    simp [h.1]
  | cons b rest ih =>
    cases hfb : formatOneBattle tag b with
    | error e => simp [runBattles, hfb, Bind.bind, Except.bind] at h
    | ok p =>
      cases hr : runBattles tag rest with
      | error e => simp [runBattles, hfb, hr, Bind.bind, Except.bind, Pure.pure, Except.pure] at h
      | ok q =>
        simp [runBattles, hfb, hr, Bind.bind, Except.bind, Pure.pure, Except.pure] at h
        obtain ⟨h1, h2⟩ := h
        subst h1
        exact List.Forall₂.cons ⟨p.2, by simpa using hfb⟩ (ih (by simpa using hr))

/-- C1, amended: `format_battle_log` processes every entry of `items` — there
is no 20-entry cap — so a successful call returns exactly one row per raw
entry, in input order. -/
theorem format_battle_log_no_cap_order_preserved {log : RawLog} {tag : List Nat}
    {fbs : List FormattedBattle} {n : Nat}
    (h : format_battle_log log tag = Except.ok (fbs, n)) :
    fbs.length = (log.items.getD []).length ∧
    List.Forall₂ (fun b fb => ∃ s, formatOneBattle tag b = Except.ok (fb, s))
      (log.items.getD []) fbs := by
  have h2 := runBattles_ok_forall2 (h : runBattles tag (log.items.getD []) = _)
  exact ⟨(List.Forall₂.length_eq h2).symm, h2⟩

/-- C1 counterexample: a raw log with 21 items yields 21 formatted rows,
refuting the claimed bound `length ≤ min(20, length of items) = 20`. -/
theorem format_battle_log_cap_counterexample :
    (format_battle_log { items := some (List.replicate 21 okBattle) } (pstr "P")).toOption.map
        (fun p => p.1.length) = some 21 ∧ ¬ (21 ≤ 20) := by
  constructor
  · decide
  · decide

/-- C1 witness: the amended theorem applied to a concrete one-item log. -/
theorem format_battle_log_no_cap_witness :
    ([okRow].length = (({ items := some [okBattle] } : RawLog).items.getD []).length ∧
     List.Forall₂ (fun b fb => ∃ s, formatOneBattle (pstr "P") b = Except.ok (fb, s))
       (({ items := some [okBattle] } : RawLog).items.getD []) [okRow]) :=
  format_battle_log_no_cap_order_preserved
    (show format_battle_log { items := some [okBattle] } (pstr "P") =
      Except.ok ([okRow], 0) by decide)

/-! ## C2: exception policy of `format_battle_log` -/

/-- C2 lemma: an exception in any record aborts the whole pass. -/
lemma runBattles_error_of_mem {tag : List Nat} {l : List RawBattle} {b : RawBattle}
    (hb : b ∈ l) (he : formatOneBattle tag b = Except.error ()) :
    runBattles tag l = Except.error () := by
  induction l with
  | nil => cases hb
  | cons c rest ih =>
    rcases List.mem_cons.mp hb with h | h
    · subst h
      simp [runBattles, he, Bind.bind, Except.bind]
    · cases hfb : formatOneBattle tag c with
      | error e => simp [runBattles, hfb, Bind.bind, Except.bind]
      | ok p => simp [runBattles, hfb, Bind.bind, Except.bind, ih h]

/-- C2 lemma: a failing pass pinpoints a failing record. -/
lemma runBattles_error_mem {tag : List Nat} {l : List RawBattle}
    (h : runBattles tag l = Except.error ()) :
    ∃ b ∈ l, formatOneBattle tag b = Except.error () := by
  induction l with
  | nil => simp [runBattles] at h
  | cons c rest ih =>
    cases hfb : formatOneBattle tag c with
    | error e => exact ⟨c, List.mem_cons_self c rest, by simpa using hfb⟩
    | ok p =>
      cases hr : runBattles tag rest with
      | error e =>
        obtain ⟨b, hb, hbe⟩ := ih (by simpa using hr)
        exact ⟨b, List.mem_cons_of_mem c hb, hbe⟩
      | ok q => simp [runBattles, hfb, hr, Bind.bind, Except.bind, Pure.pure, Except.pure] at h

/-- C2, amended: `format_battle_log` has no per-record exception handling —
it raises to its caller exactly when processing some record raises, instead
of skipping that record. -/
theorem format_battle_log_propagates_exceptions (log : RawLog) (tag : List Nat) :
    format_battle_log log tag = Except.error () ↔
      ∃ b ∈ log.items.getD [], formatOneBattle tag b = Except.error () := by
  constructor
  · exact fun h => runBattles_error_mem h
  · rintro ⟨b, hb, he⟩
    exact runBattles_error_of_mem hb he

/-- C2 counterexample: one malformed record (missing `battle` key) makes the
whole call raise, and the well-formed record after it is not processed —
refuting "the record is skipped and processing continues". -/
theorem format_battle_log_exception_counterexample :
    format_battle_log { items := some [badBattle, okBattle] } (pstr "P") = Except.error () ∧
    formatOneBattle (pstr "P") okBattle = Except.ok (okRow, false) := by
  constructor
  · decide
  · decide

/-- C2 witness: the amended theorem applied to a concrete log whose second
record raises. -/
theorem format_battle_log_propagates_witness :
    format_battle_log { items := some [okBattle, badBattle] } (pstr "P") = Except.error () :=
  (format_battle_log_propagates_exceptions { items := some [okBattle, badBattle] }
      (pstr "P")).mpr ⟨badBattle, by decide, by decide⟩

/-! ## Character-level lemmas for `str.lower` / `str.title` -/

/-- A code point that lower-cases to a lower-case ASCII letter is a letter
whose upper-case form is that letter's upper-case. -/
lemma lowerN_char {c d : Nat} (h1 : 97 ≤ d) (h2 : d ≤ 122) (h : lowerN c = d) :
    isAlphaN c = true ∧ upperN c = d - 32 ∧ lowerN c = d := by
  simp only [lowerN] at h
  by_cases hc : 65 ≤ c ∧ c ≤ 90
  · simp only [if_pos hc] at h
    have hn : ¬ (97 ≤ c ∧ c ≤ 122) := by omega
    refine ⟨by simp [isAlphaN]; omega, by simp [upperN, hn]; omega, by simp [lowerN, hc]; omega⟩
  · simp only [if_neg hc] at h
    subst h
    have hy : 97 ≤ c ∧ c ≤ 122 := by omega
    refine ⟨by simp [isAlphaN]; omega, by simp [upperN, hy], by simp [lowerN, hc]⟩

/-- Inside a word, `str.title` lower-cases: a string lower-casing to an
all-letter string title-cases (from a cased position) to that string. -/
lemma titleGo_true_eq {l t : List Nat} (h : pyLower l = t)
    (ht : ∀ d ∈ t, 97 ≤ d ∧ d ≤ 122) : titleGo true l = t := by
  induction l generalizing t with
  | nil =>
    simp [pyLower] at h
    subst h
    simp [titleGo]
  | cons c cs ih =>
    simp only [pyLower, List.map_cons] at h
    subst h
    have hc := ht (lowerN c) (by simp)
    have hch := lowerN_char hc.1 hc.2 rfl
    simp only [titleGo, hch.1, if_true]
    exact congrArg (List.cons (lowerN c)) (ih rfl fun d hd => ht d (by simp [hd]))

/-- `str.title` of any string that lower-cases to a given all-letter word is
that word with its first letter upper-cased. -/
lemma pyTitle_of_lower {l : List Nat} {c : Nat} {t : List Nat}
    (h : pyLower l = c :: t) (hc1 : 97 ≤ c) (hc2 : c ≤ 122)
    (ht : ∀ d ∈ t, 97 ≤ d ∧ d ≤ 122) : pyTitle l = (c - 32) :: t := by
  cases l with
  | nil => simp [pyLower] at h
  | cons a l2 =>
    simp only [pyLower, List.map_cons, List.cons.injEq] at h
    have ha := lowerN_char hc1 hc2 h.1
    simp only [pyTitle, titleGo, ha.1, if_true, Bool.false_eq_true, if_false]
    rw [ha.2.1]
    exact congrArg (List.cons (c - 32)) (titleGo_true_eq h.2 ht)

/-! ## Characterization of a successfully formatted row -/

/-- Fields of the row a successful `formatOneBattle` returns: the result
label is the title-cased raw result, and the star marker and star count
both come from comparing the raw star-player tag with the subject tag
verbatim. -/
lemma formatOneBattle_ok_fields {tag : List Nat} {b : RawBattle} {fb : FormattedBattle}
    {s : Bool} (h : formatOneBattle tag b = Except.ok (fb, s)) :
    ∃ inner, b.battle = some inner ∧
      fb.Result = pyTitle (inner.result.getD []) ∧
      fb.StarPlayer = (if starTagOf b = some tag then pstr "⭐" else []) ∧
      (s = true ↔ starTagOf b = some tag) := by
  rcases hbb : b.battle with _ | inner
  · simp [formatOneBattle, hbb] at h
  · refine ⟨inner, rfl, ?_⟩
    simp only [formatOneBattle, hbb] at h
    repeat' split at h
    all_goals first
      | exact Except.noConfusion h
      | (injection h with h1
         injection h1 with hfb hs
         subst hfb
         subst hs
         exact ⟨rfl, by simp [*], by simp⟩)

/-! ## Exactness of the team-roster search -/

/-- The inner roster loop only returns a player whose `tag` equals the
subject tag verbatim (no `'#'` stripping). -/
lemma findInTeam_some {tag : List Nat} {team : List RawPlayer} {p : RawPlayer}
    (h : findInTeam tag team = Except.ok (some p)) : p.tag = some tag := by
  induction team with
  | nil => simp [findInTeam, Pure.pure, Except.pure] at h
  | cons q ps ih =>
    cases hq : q.tag with
    | none => simp [findInTeam, hq, getKey, Bind.bind, Except.bind] at h
    | some t =>
      by_cases ht : t = tag
      · simp [findInTeam, hq, getKey, Bind.bind, Except.bind, ht, Pure.pure, Except.pure] at h
        rw [← h, hq, ht]
      · simp [findInTeam, hq, getKey, Bind.bind, Except.bind, ht] at h
        exact ih h

/-- The team search only returns a player whose `tag` equals the subject tag
verbatim. -/
lemma findInTeams_some {tag : List Nat} {teams : List (List RawPlayer)} {p : RawPlayer}
    (h : findInTeams tag teams = Except.ok (some p)) : p.tag = some tag := by
  induction teams with
  | nil => simp [findInTeams, Pure.pure, Except.pure] at h
  | cons team rest ih =>
    cases hft : findInTeam tag team with
    | error e => simp [findInTeams, hft, Bind.bind, Except.bind] at h
    | ok r =>
      cases r with
      | none =>
        simp [findInTeams, hft, Bind.bind, Except.bind] at h
        exact ih h
      | some q =>
        simp [findInTeams, hft, Bind.bind, Except.bind, Pure.pure, Except.pure] at h
        rw [← h]
        exact findInTeam_some hft

/-- `str.title` of any string reading `victory` case-insensitively. -/
lemma pyTitle_victory {r : List Nat} (h : pyLower r = pstr "victory") :
    pyTitle r = pstr "Victory" := by
  have h2 : pyLower r = 118 :: pstr "ictory" := by rw [h]; decide
  have h3 := pyTitle_of_lower h2 (by norm_num) (by norm_num) (by decide)
  rw [h3]; decide

/-- `str.title` of any string reading `defeat` case-insensitively. -/
lemma pyTitle_defeat {r : List Nat} (h : pyLower r = pstr "defeat") :
    pyTitle r = pstr "Defeat" := by
  have h2 : pyLower r = 100 :: pstr "efeat" := by rw [h]; decide
  have h3 := pyTitle_of_lower h2 (by norm_num) (by norm_num) (by decide)
  rw [h3]; decide

/-- `str.title` of any string reading `draw` case-insensitively. -/
lemma pyTitle_draw {r : List Nat} (h : pyLower r = pstr "draw") :
    pyTitle r = pstr "Draw" := by
  have h2 : pyLower r = 100 :: pstr "raw" := by rw [h]; decide
  have h3 := pyTitle_of_lower h2 (by norm_num) (by norm_num) (by decide)
  rw [h3]; decide

/-- A raw battle whose star player's tag is the bare `ABC` while a caller may
pass the `'#'`-prefixed form. -/
def starBattle : RawBattle :=
  { battle := some { mode := some (pstr "gemGrab"), players := none, teams := none, typ := none,
                     result := none, duration := none, trophyChange := none,
                     rank := none, starPlayer := some { tag := some (pstr "ABC") } },
    battleTime := some (pstr "t"), event := some { map := none } }

/-- A raw battle whose single team roster holds a player tagged bare `ABC`
with one brawler. -/
def teamBattle : RawBattle :=
  { battle := some { mode := some (pstr "gemGrab"), players := none,
                     teams := some [[{ tag := some (pstr "ABC"),
                                       brawler := some { name := some (pstr "shelly"),
                                                         power := some 9, trophies := some 500 },
                                       brawlers := none }]],
                     typ := none, result := none, duration := none, trophyChange := none,
                     rank := none, starPlayer := none },
    battleTime := some (pstr "t"), event := some { map := none } }

/-- The row `format_battle_log` produces for `starBattle` under the exactly
matching subject tag `ABC`. -/
def starRow : FormattedBattle :=
  { okRow with Mode := pstr "Gemgrab", StarPlayer := pstr "⭐" }

/-! ## C6: tag comparison in `format_battle_log` -/

/-- C6, amended: `format_battle_log` locates the subject in the team rosters
and sets the star-player marker (and star count) by comparing tags for exact
string equality, without stripping the `'#'` prefix from either side. -/
theorem format_battle_log_tag_comparison_verbatim {tag : List Nat} {b : RawBattle}
    {fb : FormattedBattle} {s : Bool} (h : formatOneBattle tag b = Except.ok (fb, s)) :
    ((s = true ↔ starTagOf b = some tag) ∧
     (fb.StarPlayer = pstr "⭐" ↔ starTagOf b = some tag)) ∧
    (∀ teams p, findInTeams tag teams = Except.ok (some p) → p.tag = some tag) := by
  obtain ⟨inner, hbb, hres, hstar, hs⟩ := formatOneBattle_ok_fields h
  refine ⟨⟨hs, ?_⟩, fun teams p hp => findInTeams_some hp⟩
  rw [hstar]
  by_cases hc : starTagOf b = some tag
  · simp [hc]
  · simp [hc]
    decide

/-- C6 counterexample: with subject tag `#ABC` and rosters/star tags bare
`ABC` — equal after `'#'` stripping — the star marker stays empty, the star
count stays 0, and the roster search misses the player, refuting the claimed
`'#'`-insensitive comparison. -/
theorem format_battle_log_tag_stripping_counterexample :
    ((format_battle_log { items := some [starBattle] } (pstr "#ABC")).toOption.map
        (fun p => (p.1.map FormattedBattle.StarPlayer, p.2)) = some ([[]], 0)) ∧
    ((format_battle_log { items := some [teamBattle] } (pstr "#ABC")).toOption.map
        (fun p => p.1.map FormattedBattle.Brawler) = some [pstr "Unknown"]) ∧
    replaceAll (pstr "#ABC") (pstr "#") [] = replaceAll (pstr "ABC") (pstr "#") [] := by
  refine ⟨by decide, by decide, by decide⟩

/-- C6 witness: the amended theorem applied to a battle whose star tag equals
the subject tag verbatim. -/
theorem format_battle_log_tag_comparison_witness :
    (((true = true) ↔ starTagOf starBattle = some (pstr "ABC")) ∧
     (starRow.StarPlayer = pstr "⭐" ↔ starTagOf starBattle = some (pstr "ABC"))) ∧
    (∀ teams p, findInTeams (pstr "ABC") teams = Except.ok (some p) →
      p.tag = some (pstr "ABC")) :=
  format_battle_log_tag_comparison_verbatim
    (show formatOneBattle (pstr "ABC") starBattle = Except.ok (starRow, true) by decide)

/-! ## C7: the result label of a normalized row -/

/-- C7, amended: a normalized row's `Result` label is the title-cased raw
result — `Victory`/`Defeat`/`Draw` for raw values reading
`victory`/`defeat`/`draw` case-insensitively, the title-cased raw value for
anything else, and the empty string when the result key is absent; the
separate `_get_battle_result` helper is what maps every other value
(including absent) to `No Result`. -/
theorem formatted_result_label {tag : List Nat} {b : RawBattle} {fb : FormattedBattle}
    {s : Bool} (h : formatOneBattle tag b = Except.ok (fb, s)) :
    fb.Result = pyTitle ((b.battle.bind RawBattleInner.result).getD []) ∧
    (pyLower ((b.battle.bind RawBattleInner.result).getD []) = pstr "victory" →
      fb.Result = pstr "Victory") ∧
    (pyLower ((b.battle.bind RawBattleInner.result).getD []) = pstr "defeat" →
      fb.Result = pstr "Defeat") ∧
    (pyLower ((b.battle.bind RawBattleInner.result).getD []) = pstr "draw" →
      fb.Result = pstr "Draw") ∧
    (b.battle.bind RawBattleInner.result = none → fb.Result = []) ∧
    (pyLower ((b.battle.bind RawBattleInner.result).getD []) ≠ pstr "victory" →
     pyLower ((b.battle.bind RawBattleInner.result).getD []) ≠ pstr "defeat" →
     pyLower ((b.battle.bind RawBattleInner.result).getD []) ≠ pstr "draw" →
      get_battle_result b = pstr "No Result") := by
  obtain ⟨inner, hbb, hres, hstar, hs⟩ := formatOneBattle_ok_fields h
  have hbind : b.battle.bind RawBattleInner.result = inner.result := by simp [hbb]
  rw [hbind]
  refine ⟨by rw [hres], fun hv => by rw [hres]; exact pyTitle_victory hv,
          fun hv => by rw [hres]; exact pyTitle_defeat hv,
          fun hv => by rw [hres]; exact pyTitle_draw hv,
          fun hn => by rw [hres, hn]; decide,
          fun h1 h2 h3 => by simp [get_battle_result, hbind, h1, h2, h3]⟩

/-- A raw battle with an upper-case raw result. -/
def resultBattle : RawBattle :=
  { battle := some { mode := some (pstr "gemGrab"), players := none, teams := none, typ := none,
                     result := some (pstr "VICTORY"), duration := none, trophyChange := none,
                     rank := none, starPlayer := none },
    battleTime := some (pstr "t"), event := some { map := none } }

/-- The row `format_battle_log` produces for `resultBattle`. -/
def resultRow : FormattedBattle :=
  { okRow with Result := pstr "Victory" }

/-- C7 counterexample: a record with no raw result yields a row whose
`Result` is the empty string, not the claimed `No Result` (which only the
unused `_get_battle_result` helper produces). -/
theorem formatted_result_label_counterexample :
    ((format_battle_log { items := some [okBattle] } (pstr "P")).toOption.map
        (fun p => p.1.map FormattedBattle.Result) = some [[]]) ∧
    (([] : List Nat) ≠ pstr "No Result") ∧
    get_battle_result okBattle = pstr "No Result" := by
  refine ⟨by decide, by decide, by decide⟩

/-- C7 witness: the amended theorem applied to a record whose raw result is
`VICTORY`. -/
theorem formatted_result_label_witness :
    resultRow.Result =
      pyTitle ((resultBattle.battle.bind RawBattleInner.result).getD []) ∧
    resultRow.Result = pstr "Victory" :=
  have h := formatted_result_label (show formatOneBattle (pstr "P") resultBattle =
    Except.ok (resultRow, false) by decide)
  ⟨h.1, h.2.1 (by decide)⟩

/-! ## C4: the victory classifier -/

/-- C4, amended: `_is_victory` classifies a win by: solo showdown with a
non-empty rank label parsing to a value ≤ 4; duo showdown with such a value
≤ 2; and in every remaining case — including a showdown battle with an
empty rank label — a result reading `victory` case-insensitively. -/
theorem is_victory_rule {b : FormattedBattle} {w : Bool}
    (h : is_victory b = Except.ok w) :
    (w = true ↔ victoryRuleCode b) := by
  by_cases h1 : pyLower b.Mode = pstr "soloshowdown" ∧ b.Rank ≠ []
  · simp only [is_victory, if_pos h1] at h
    cases hp : pyInt (replaceAll b.Rank (pstr "#") []) with
    | none => rw [hp] at h; exact Except.noConfusion h
    | some k =>
      rw [hp] at h
      injection h with h2
      subst h2
      constructor
      · intro hw
        exact Or.inl ⟨h1.1, h1.2, k, hp, of_decide_eq_true hw⟩
      · rintro (⟨_, _, k2, hk2, hle⟩ | ⟨hd, _, _⟩ | ⟨hn, _, _⟩)
        · rw [hp] at hk2
          injection hk2 with hk3
          subst hk3
          exact decide_eq_true hle
        · rw [h1.1] at hd
          exact absurd hd (by decide)
        · exact absurd h1 hn
  · by_cases h2 : pyLower b.Mode = pstr "duoshowdown" ∧ b.Rank ≠ []
    · simp only [is_victory, if_neg h1, if_pos h2] at h
      cases hp : pyInt (replaceAll b.Rank (pstr "#") []) with
      | none => rw [hp] at h; exact Except.noConfusion h
      | some k =>
        rw [hp] at h
        injection h with h3
        subst h3
        constructor
        · intro hw
          exact Or.inr (Or.inl ⟨h2.1, h2.2, k, hp, of_decide_eq_true hw⟩)
        · rintro (⟨hd, _, _⟩ | ⟨_, _, k2, hk2, hle⟩ | ⟨_, hn, _⟩)
          · rw [h2.1] at hd
            exact absurd hd (by decide)
          · rw [hp] at hk2
            injection hk2 with hk3
            subst hk3
            exact decide_eq_true hle
          · exact absurd h2 hn
    · simp only [is_victory, if_neg h1, if_neg h2] at h
      injection h with h3
      subst h3
      constructor
      · intro hw
        exact Or.inr (Or.inr ⟨h1, h2, of_decide_eq_true hw⟩)
      · rintro (⟨ha, hb, _⟩ | ⟨ha, hb, _⟩ | ⟨_, _, hr⟩)
        · exact absurd ⟨ha, hb⟩ h1
        · exact absurd ⟨ha, hb⟩ h2
        · exact decide_eq_true hr

/-- A solo-showdown row with an empty rank label and a `Victory` result. -/
def soloNoRank : FormattedBattle :=
  { Time := [], Brawler := [], Power := 0, Trophies := 0, Mode := pstr "Soloshowdown",
    Map := [], Type_ := [], Result := pstr "Victory", Duration := [], TrophyChange := 0,
    Rank := [], StarPlayer := [] }

/-- C4 counterexample: a solo-showdown record with no rank and result
`Victory` is classified a win by the code, but the claimed rule counts no
rank-less showdown battle as a win — the result check applies "for every
other mode" only. -/
theorem is_victory_rule_counterexample :
    is_victory soloNoRank = Except.ok true ∧ ¬ victoryRuleA soloNoRank := by
  constructor
  · decide
  · intro hA
    rcases hA with ⟨h1, h2, h3⟩ | ⟨h1, h2, h3⟩ | ⟨h1, h2, h3⟩
    · exact h2 (by decide)
    · exact h2 (by decide)
    · exact h1 (by decide)

/-- A duo-showdown row ranked `#2`. -/
def duoRank2 : FormattedBattle :=
  { Time := [], Brawler := [], Power := 0, Trophies := 0, Mode := pstr "duoShowdown",
    Map := [], Type_ := [], Result := [], Duration := [], TrophyChange := 0,
    Rank := 35 :: intToStr 2, StarPlayer := [] }

/-- C4 witness: the amended theorem applied to a duo-showdown win. -/
theorem is_victory_rule_witness : victoryRuleCode duoRank2 :=
  (is_victory_rule (show is_victory duoRank2 = Except.ok true by decide)).mp rfl

/-! ## C3: the aggregate statistics -/

/-- The victory generator of `calculate_battle_statistics` counts exactly
the records `_is_victory` accepts, whenever no record raises. -/
lemma countVictories_ok {l : List FormattedBattle}
    (hl : ∀ b ∈ l, is_victory b ≠ Except.error ()) :
    countVictories l =
      Except.ok (l.countP (fun b => decide (is_victory b = Except.ok true))) := by
  induction l with
  | nil => simp [countVictories]
  | cons b rest ih =>
    cases hv : is_victory b with
    | error e =>
      cases e
      exact absurd hv (hl b (List.mem_cons_self b rest))
    | ok w =>
      have hrest := ih fun x hx => hl x (List.mem_cons_of_mem b hx)
      simp only [countVictories, hv, hrest, Bind.bind, Except.bind, Pure.pure, Except.pure,
        List.countP_cons, Except.ok.injEq]
      cases w <;> simp [hv] <;> omega

/-- C3: `calculate_battle_statistics` returns the input length as
`total_games`, the `_is_victory` count as `victories`, and
`victories / total_games * 100` as `win_rate` (which is the zero of the
guarded branch when the input is empty, so no division by zero occurs);
the empty input returns the all-zero record. -/
theorem calculate_battle_statistics_spec (battles : List FormattedBattle)
    (hl : ∀ b ∈ battles, is_victory b ≠ Except.error ()) :
    ∃ stats, calculate_battle_statistics battles = Except.ok stats ∧
      stats.total_games = battles.length ∧
      stats.victories = battles.countP (fun b => decide (is_victory b = Except.ok true)) ∧
      stats.win_rate = (stats.victories : ℚ) / (stats.total_games : ℚ) * 100 ∧
      (battles = [] → stats = { total_games := 0, victories := 0, win_rate := 0 }) := by
  by_cases hb : battles = []
  · subst hb
    exact ⟨{ total_games := 0, victories := 0, win_rate := 0 }, rfl, rfl, by simp,
      by simp, fun _ => rfl⟩
  · have hc := countVictories_ok hl
    have hpos : 0 < battles.length := List.length_pos.mpr hb
    refine ⟨{ total_games := battles.length,
              victories := battles.countP (fun b => decide (is_victory b = Except.ok true)),
              win_rate := ((battles.countP (fun b => decide (is_victory b = Except.ok true)) : ℚ) /
                (battles.length : ℚ)) * 100 },
            ?_, rfl, rfl, rfl, fun he => absurd he hb⟩
    simp [calculate_battle_statistics, hb, hc, Bind.bind, Except.bind, Pure.pure, Except.pure,
      hpos]

/-- C3 witness: the theorem applied to a concrete one-record input. -/
theorem calculate_battle_statistics_spec_witness :
    ∃ stats, calculate_battle_statistics [soloNoRank] = Except.ok stats ∧
      stats.total_games = [soloNoRank].length ∧
      stats.victories = [soloNoRank].countP (fun b => decide (is_victory b = Except.ok true)) ∧
      stats.win_rate = (stats.victories : ℚ) / (stats.total_games : ℚ) * 100 ∧
      ([soloNoRank] = [] → stats = { total_games := 0, victories := 0, win_rate := 0 }) :=
  calculate_battle_statistics_spec [soloNoRank] (by decide)

/-! ## C8: trophy-change formatting -/

/-- C8, amended: `_format_trophy_change` prefixes `'+'` exactly for strictly
positive changes; zero and negative changes print as-is, a negative one
carrying its `'-'` sign. -/
theorem format_trophy_change_rule (n : Int) :
    (0 < n → format_trophy_change (mkTCBattle n) = 43 :: intToStr n) ∧
    (n ≤ 0 → format_trophy_change (mkTCBattle n) = intToStr n) ∧
    (n < 0 → intToStr n = 45 :: intToStr (-n)) := by
  refine ⟨fun hp => ?_, fun hnp => ?_, fun hneg => ?_⟩
  · simp [format_trophy_change, mkTCBattle, hp]
  · simp [format_trophy_change, mkTCBattle, show ¬ (0 : Int) < n from not_lt.mpr hnp]
  · rcases n with m | m
    · exact absurd hneg (Int.not_lt.mpr (Int.ofNat_nonneg m))
    · show pstr (toString (Int.negSucc m)) = 45 :: pstr (toString (-(Int.negSucc m)))
      have h1 : toString (Int.negSucc m) = "-" ++ toString (m + 1) := rfl
      have h2 : (-(Int.negSucc m)) = Int.ofNat (m + 1) := rfl
      rw [h1, h2]
      simp [pstr, String.data_append]
      rfl

/-- C8 counterexample: the change `0` formats as `"0"`, not the `"+0"` the
claimed rule ("'+' for every non-negative value") requires. -/
theorem format_trophy_change_counterexample :
    format_trophy_change (mkTCBattle 0) = pstr "0" ∧ pstr "0" ≠ pstr "+0" := by
  refine ⟨by decide, by decide⟩

/-- C8 witness: the amended theorem applied at `42` and `-15`, with the three
sample values evaluated. -/
theorem format_trophy_change_witness :
    format_trophy_change (mkTCBattle 42) = 43 :: intToStr 42 ∧
    format_trophy_change (mkTCBattle (-15)) = intToStr (-15) ∧
    intToStr (-15) = 45 :: intToStr 15 ∧
    format_trophy_change (mkTCBattle 42) = pstr "+42" ∧
    format_trophy_change (mkTCBattle (-15)) = pstr "-15" ∧
    format_trophy_change (mkTCBattle 0) = pstr "0" :=
  ⟨(format_trophy_change_rule 42).1 (by norm_num),
   (format_trophy_change_rule (-15)).2.1 (by norm_num),
   by simpa using (format_trophy_change_rule (-15)).2.2 (by norm_num),
   by decide, by decide, by decide⟩

/-! ## C9: timestamp formatting -/

/-- C9: `_format_battle_time` returns the sentinel `Unknown` exactly on parse
failure — a successful parse always yields a `dd.mm.yyyy hh:mm` rendering,
never the sentinel — and the canonical sample formats to
`01.01.2024 12:00`. -/
theorem format_battle_time_spec (s : List Nat) :
    (parseBattleTime s = none → format_battle_time s = pstr "Unknown") ∧
    (∀ v, parseBattleTime s = some v → format_battle_time s ≠ pstr "Unknown") ∧
    format_battle_time (pstr "20240101T120000.000Z") = pstr "01.01.2024 12:00" ∧
    parseBattleTime (pstr "not a timestamp") = none ∧
    format_battle_time (pstr "not a timestamp") = pstr "Unknown" := by
  refine ⟨fun hn => by simp [format_battle_time, hn], fun v hv heq => ?_,
    by decide, by decide, by decide⟩
  obtain ⟨y, mo, d, h, mi, se⟩ := v
  simp only [format_battle_time, hv] at heq
  have hL : (pad2 d ++ [46] ++ pad2 mo ++ [46] ++ pad4 y ++ [32] ++ pad2 h ++ [58]
      ++ pad2 mi)[2]? = some 46 := by
    simp [pad2, pad4]
  rw [heq] at hL
  exact absurd hL (by decide)

/-- C9 witness: the theorem applied to a failing and to a succeeding concrete
timestamp. -/
theorem format_battle_time_spec_witness :
    format_battle_time (pstr "20241301T120000.000Z") = pstr "Unknown" ∧
    format_battle_time (pstr "20240101T120000.000Z") ≠ pstr "Unknown" :=
  ⟨(format_battle_time_spec (pstr "20241301T120000.000Z")).1 (by decide),
   (format_battle_time_spec (pstr "20240101T120000.000Z")).2.1 (2024, 1, 1, 12, 0, 0)
     (by decide)⟩

/-! ## C5: brawler summary statistics -/

/-- The `calculate_brawler_statistics` loop accumulates the two power counts
and the three equipment-list length sums. -/
lemma brawlerFold_spec : ∀ (l : List Brawler) (acc : BrawlerAcc),
    (l.foldl brawlerStep acc).high = acc.high + l.countP (fun b => decide (9 ≤ b.power)) ∧
    (l.foldl brawlerStep acc).maxed = acc.maxed + l.countP (fun b => decide (b.power = 11)) ∧
    (l.foldl brawlerStep acc).gears =
      acc.gears + (l.map (fun b => (b.gears.getD []).length)).sum ∧
    (l.foldl brawlerStep acc).starpowers =
      acc.starpowers + (l.map (fun b => (b.starPowers.getD []).length)).sum ∧
    (l.foldl brawlerStep acc).gadgets =
      acc.gadgets + (l.map (fun b => (b.gadgets.getD []).length)).sum := by
  intro l
  induction l with
  | nil => intro acc; simp
  | cons b rest ih =>
    intro acc
    obtain ⟨h1, h2, h3, h4, h5⟩ := ih (brawlerStep acc b)
    simp only [List.foldl_cons, List.countP_cons, List.map_cons, List.sum_cons]
    refine ⟨?_, ?_, ?_, ?_, ?_⟩
    · rw [h1]; simp [brawlerStep]; split_ifs <;> omega
    · rw [h2]; simp [brawlerStep]; split_ifs <;> omega
    · rw [h3]
      simp [brawlerStep]
      cases b.gears <;> simp <;> omega
    · rw [h4]
      simp [brawlerStep]
      cases b.starPowers <;> simp <;> omega
    · rw [h5]
      simp [brawlerStep]
      cases b.gadgets <;> simp <;> omega

/-- C5, amended: `calculate_brawler_statistics` returns the brawler count,
the count of brawlers with power ≥ 9, the count with power = 11 (never
exceeding the former), and the summed lengths of the three optional
equipment lists with missing lists contributing zero; it computes no
average-trophies value, and a profile without a `brawlers` key yields the
empty dictionary rather than failing. -/
theorem calculate_brawler_statistics_spec (pd : PlayerData) :
    (pd.brawlers = none → calculate_brawler_statistics pd = []) ∧
    (∀ bs, pd.brawlers = some bs →
      calculate_brawler_statistics pd =
        [("total_brawlers", bs.length),
         ("high_level_brawlers", bs.countP (fun b => decide (9 ≤ b.power))),
         ("max_level_brawlers", bs.countP (fun b => decide (b.power = 11))),
         ("total_gears", (bs.map (fun b => (b.gears.getD []).length)).sum),
         ("total_starpowers", (bs.map (fun b => (b.starPowers.getD []).length)).sum),
         ("total_gadgets", (bs.map (fun b => (b.gadgets.getD []).length)).sum)] ∧
      bs.countP (fun b => decide (b.power = 11)) ≤
        bs.countP (fun b => decide (9 ≤ b.power))) := by
  constructor
  · intro hn
    simp [calculate_brawler_statistics, hn]
  · intro bs hbs
    obtain ⟨h1, h2, h3, h4, h5⟩ := brawlerFold_spec bs
      { high := 0, maxed := 0, gears := 0, starpowers := 0, gadgets := 0 }
    constructor
    · simp only [calculate_brawler_statistics, hbs]
      rw [h1, h2, h3, h4, h5]
      simp
    · exact List.countP_mono_left fun b hb hp =>
        decide_eq_true (by have := of_decide_eq_true hp; omega)

/-- A one-brawler profile whose average trophies would be 100. -/
def avgPlayer : PlayerData :=
  { brawlers := some [{ name := some (pstr "X"), power := 5, trophies := some 100,
                        gears := none, starPowers := none, gadgets := none }] }

/-- C5 counterexample: the returned dictionary carries no average-trophies
entry at all — here the average would be 100 and no entry holds 100 under
any key — and a profile without a `brawlers` key returns the empty
dictionary, not an all-zero one. -/
theorem calculate_brawler_statistics_counterexample :
    calculate_brawler_statistics avgPlayer =
      [("total_brawlers", 1), ("high_level_brawlers", 0), ("max_level_brawlers", 0),
       ("total_gears", 0), ("total_starpowers", 0), ("total_gadgets", 0)] ∧
    (∀ kv ∈ calculate_brawler_statistics avgPlayer, kv.2 ≠ 100) ∧
    (calculate_brawler_statistics avgPlayer).lookup "averageTrophies" = none ∧
    calculate_brawler_statistics { brawlers := none } = [] := by
  refine ⟨by decide, by decide, by decide, by decide⟩

/-- The spec's sample profile: powers 9, 11, 11, 5 with some equipment. -/
def samplePlayer : PlayerData :=
  { brawlers := some [{ name := some (pstr "A"), power := 9, trophies := some 10,
                        gears := some [some (pstr "g")], starPowers := none, gadgets := none },
                      { name := some (pstr "B"), power := 11, trophies := some 20,
                        gears := none, starPowers := some [none, none], gadgets := none },
                      { name := some (pstr "C"), power := 11, trophies := some 30,
                        gears := none, starPowers := none, gadgets := some [some (pstr "d")] },
                      { name := some (pstr "D"), power := 5, trophies := some 40,
                        gears := none, starPowers := none, gadgets := none }] }

/-- C5 witness: the amended theorem applied to the sample profile. -/
theorem calculate_brawler_statistics_witness :
    calculate_brawler_statistics samplePlayer =
      [("total_brawlers", (samplePlayer.brawlers.getD []).length),
       ("high_level_brawlers",
         (samplePlayer.brawlers.getD []).countP (fun b => decide (9 ≤ b.power))),
       ("max_level_brawlers",
         (samplePlayer.brawlers.getD []).countP (fun b => decide (b.power = 11))),
       ("total_gears",
         ((samplePlayer.brawlers.getD []).map (fun b => (b.gears.getD []).length)).sum),
       ("total_starpowers",
         ((samplePlayer.brawlers.getD []).map (fun b => (b.starPowers.getD []).length)).sum),
       ("total_gadgets",
         ((samplePlayer.brawlers.getD []).map (fun b => (b.gadgets.getD []).length)).sum)] ∧
    (samplePlayer.brawlers.getD []).countP (fun b => decide (b.power = 11)) ≤
      (samplePlayer.brawlers.getD []).countP (fun b => decide (9 ≤ b.power)) :=
  (calculate_brawler_statistics_spec samplePlayer).2 (samplePlayer.brawlers.getD []) rfl

/-! ## C10: highest-trophy brawler -/

/-- Python `max(..., key=...)` keeps the running maximum and replaces it only
on a strictly greater key: the fold returns the element at the first index
attaining the maximum key — everything is bounded by it and everything
before it is strictly below. -/
lemma maxByTroph_firstMax : ∀ (l : List Brawler) (a : Brawler),
    ∃ i, ∃ h : i < (a :: l).length,
      maxByTroph a l = (a :: l).get ⟨i, h⟩ ∧
      (∀ j (hj : j < (a :: l).length), keyT ((a :: l).get ⟨j, hj⟩) ≤ keyT (maxByTroph a l)) ∧
      (∀ j (hj : j < (a :: l).length), j < i →
        keyT ((a :: l).get ⟨j, hj⟩) < keyT (maxByTroph a l)) := by
  intro l
  induction l with
  | nil =>
    intro a
    refine ⟨0, by simp, rfl, ?_, ?_⟩
    · intro j hj
      have hj0 : j = 0 := by simpa using hj
      subst hj0
      exact le_refl _
    · intro j hj hji
      omega
  | cons x xs ih =>
    intro a
    have hfold : maxByTroph a (x :: xs) = maxByTroph (if keyT a < keyT x then x else a) xs := rfl
    by_cases hax : keyT a < keyT x
    · obtain ⟨i, hi, heq, hub, hstrict⟩ := ih x
      have hmax : maxByTroph a (x :: xs) = maxByTroph x xs := by rw [hfold, if_pos hax]
      refine ⟨i + 1, by simpa using hi, ?_, ?_, ?_⟩
      · rw [hmax, heq]
        rfl
      · intro j hj
        match j, hj with
        | 0, hj =>
          have h0 : keyT a < keyT (maxByTroph x xs) :=
            lt_of_lt_of_le hax (by simpa using hub 0 (by simp))
          simpa [hmax] using le_of_lt h0
        | j + 1, hj =>
          rw [hmax]
          exact hub j (by simpa using hj)
      · intro j hj hji
        match j, hj, hji with
        | 0, hj, hji =>
          have h0 : keyT a < keyT (maxByTroph x xs) :=
            lt_of_lt_of_le hax (by simpa using hub 0 (by simp))
          simpa [hmax] using h0
        | j + 1, hj, hji =>
          rw [hmax]
          exact hstrict j (by simpa using hj) (by omega)
    · obtain ⟨i, hi, heq, hub, hstrict⟩ := ih a
      have hmax : maxByTroph a (x :: xs) = maxByTroph a xs := by rw [hfold, if_neg hax]
      have hxa : keyT x ≤ keyT a := not_lt.mp hax
      cases i with
      | zero =>
        refine ⟨0, by simp, ?_, ?_, ?_⟩
        · rw [hmax, heq]
          rfl
        · intro j hj
          have ha0 : keyT a ≤ keyT (maxByTroph a xs) := by simpa using hub 0 (by simp)
          match j, hj with
          | 0, hj => simpa [hmax] using ha0
          | 1, hj => simpa [hmax] using le_trans hxa ha0
          | j + 2, hj =>
            rw [hmax]
            exact hub (j + 1) (by simpa using hj)
        · intro j hj hji
          omega
      | succ k =>
        refine ⟨k + 2, by simpa using hi, ?_, ?_, ?_⟩
        · rw [hmax, heq]
          rfl
        · intro j hj
          have ha0 : keyT a ≤ keyT (maxByTroph a xs) := by simpa using hub 0 (by simp)
          match j, hj with
          | 0, hj => simpa [hmax] using ha0
          | 1, hj => simpa [hmax] using le_trans hxa ha0
          | j + 2, hj =>
            rw [hmax]
            exact hub (j + 1) (by simpa using hj)
        · intro j hj hji
          have ha0 : keyT a < keyT (maxByTroph a xs) :=
            by simpa using hstrict 0 (by simp) (by omega)
          match j, hj, hji with
          | 0, hj, hji => simpa [hmax] using ha0
          | 1, hj, hji => simpa [hmax] using lt_of_le_of_lt hxa ha0
          | j + 2, hj, hji =>
            rw [hmax]
            exact hstrict (j + 1) (by simpa using hj) (by omega)

/-- C10: `get_highest_trophy_brawler` returns the empty result for a falsy
profile, a missing `brawlers` key or an empty brawler list, and otherwise
the name and trophies of the brawler at the first index attaining the
maximum trophy count (ties broken by input order). -/
theorem get_highest_trophy_brawler_spec (pd : PlayerData) :
    (pd.brawlers = none → get_highest_trophy_brawler pd = none) ∧
    (pd.brawlers = some [] → get_highest_trophy_brawler pd = none) ∧
    (∀ b bs, pd.brawlers = some (b :: bs) →
      ∃ i, ∃ h : i < (b :: bs).length,
        get_highest_trophy_brawler pd =
          some (((b :: bs).get ⟨i, h⟩).name.getD (pstr "Unknown"),
                keyT ((b :: bs).get ⟨i, h⟩)) ∧
        (∀ j (hj : j < (b :: bs).length),
          keyT ((b :: bs).get ⟨j, hj⟩) ≤ keyT ((b :: bs).get ⟨i, h⟩)) ∧
        (∀ j (hj : j < (b :: bs).length), j < i →
          keyT ((b :: bs).get ⟨j, hj⟩) < keyT ((b :: bs).get ⟨i, h⟩))) := by
  refine ⟨fun hn => by simp [get_highest_trophy_brawler, hn],
          fun hn => by simp [get_highest_trophy_brawler, hn],
          fun b bs hbs => ?_⟩
  obtain ⟨i, hlt, heq, hub, hstrict⟩ := maxByTroph_firstMax bs b
  refine ⟨i, hlt, ?_, ?_, ?_⟩
  · simp only [get_highest_trophy_brawler, hbs]
    rw [heq]
    rfl
  · intro j hj
    have := hub j hj
    rwa [heq] at this
  · intro j hj hji
    have := hstrict j hj hji
    rwa [heq] at this

/-- A profile with two equal-trophy brawlers, to exercise the tie rule. -/
def tiePlayer : PlayerData :=
  { brawlers := some [{ name := some (pstr "A"), power := 1, trophies := some 5,
                        gears := none, starPowers := none, gadgets := none },
                      { name := some (pstr "B"), power := 1, trophies := some 5,
                        gears := none, starPowers := none, gadgets := none }] }

/-- C10 witness: the theorem applied to a two-way tie, which the first
brawler wins. -/
theorem get_highest_trophy_brawler_witness :
    (∃ i, ∃ h : i < ((tiePlayer.brawlers.getD []).length),
      get_highest_trophy_brawler tiePlayer =
        some (((tiePlayer.brawlers.getD []).get ⟨i, h⟩).name.getD (pstr "Unknown"),
              keyT ((tiePlayer.brawlers.getD []).get ⟨i, h⟩)) ∧
      (∀ j (hj : j < (tiePlayer.brawlers.getD []).length),
        keyT ((tiePlayer.brawlers.getD []).get ⟨j, hj⟩) ≤
          keyT ((tiePlayer.brawlers.getD []).get ⟨i, h⟩)) ∧
      (∀ j (hj : j < (tiePlayer.brawlers.getD []).length), j < i →
        keyT ((tiePlayer.brawlers.getD []).get ⟨j, hj⟩) <
          keyT ((tiePlayer.brawlers.getD []).get ⟨i, h⟩))) ∧
    get_highest_trophy_brawler tiePlayer = some (pstr "A", 5) := by
  constructor
  · exact (get_highest_trophy_brawler_spec tiePlayer).2.2 _ _ rfl
  · decide
